import Mathlib

/-
Verification development for the velora repository (Azure network-policy
enforcement). The definitions below are a shallow embedding of
`internal/controllers/routing/routing.go`, `internal/config/model.go` and the
Azure client factory; theorems settle the claims about the routing
reconciliation engine.

Modelling conventions:
- Azure SDK pagers are embedded as `List (Except String (List α))`: each list
  element is the outcome of one `NextPage` call (a page of values, or the
  error the pager returned mid-sequence).
- Side effects (route mutations already issued, warnings already printed) are
  accumulated in an explicit result record; Go's early `return err` is the
  error field of that record, which stops further sequencing.
- Go's `map` iteration order over subscriptions is abstracted as the order of
  an association list.
- `net.ParseCIDR` / `net.ParseIP` are Go standard-library routines, abstracted
  as boolean predicates passed to validation.
-/

deriving instance DecidableEq for Except

/-- Next-hop types from `armnetwork.RouteNextHopType`; the source compares
only against `RouteNextHopTypeVirtualAppliance`. -/
inductive NextHopType where
  | virtualAppliance
  | internet
  | noHop
  | virtualNetworkGateway
  | vnetLocal
  deriving DecidableEq, Repr

/-- A route of a route table (`armnetwork.Route` restricted to the fields the
source reads: `AddressPrefix`, `NextHopType`, `NextHopIPAddress`; a Go nil
pointer is `none`). `addrPfx` embeds the source's `AddressPrefix` field. -/
structure Route where
  addrPfx : Option String
  nextHopType : Option NextHopType
  nextHopIPAddress : Option String
  deriving DecidableEq, Repr

/-- A subnet as read by the source: its name and the resource ID of its
associated route table (`subnet.Properties.RouteTable`, `none` when nil). -/
structure Subnet where
  name : String
  routeTableID : Option String
  deriving DecidableEq, Repr

/-- A virtual network as read by the source (`*vnet.ID`, `*vnet.Name`). -/
structure VNet where
  id : String
  name : String
  deriving DecidableEq, Repr

/-- `config.HubVNetConfig`. -/
structure HubVNetConfig where
  vnetID : String
  resourceGroup : String
  name : String
  nvaNextHop : String
  deriving DecidableEq, Repr

/-- `config.SubscriptionConfig`. -/
structure SubscriptionConfig where
  allowedCIDRs : List String
  hubName : String
  requireHubPeering : Bool
  requireNVARouting : Bool
  subnetToSubnetDeny : Bool
  deriving DecidableEq, Repr

/-- `config.FeaturesConfig`. -/
structure FeaturesConfig where
  ipamEnforcement : Bool
  routingEnforcement : Bool
  peeringEnforcement : Bool
  complianceScanning : Bool
  autoRemediation : Bool
  deriving DecidableEq, Repr

/-- `config.Config`, restricted to the fields the enforcement and validation
code reads (`Azure`, `API`, `Logging` are not consulted by the claims'
code). Subscriptions are an association list standing for the Go map. -/
structure Config where
  hubs : List HubVNetConfig
  subscriptions : List (String × SubscriptionConfig)
  features : FeaturesConfig
  deriving DecidableEq, Repr

/-- The Go loop body of `extractResourceIDParts`: consecutive (key, value)
pairs of the slash-separated segments; a trailing key without a value is
dropped (the loop guard `i < len(parts)-1`). -/
def pairUp : List String → List (String × String)
  | k :: v :: rest => (k, v) :: pairUp rest
  | _ => []

/-- `strings.Split(s, "/")` for the single-character separator, over the
string's character list: segments between `/` occurrences (an empty input
yields one empty segment, as in Go). -/
def splitSlash : List Char → List (List Char)
  | [] => [[]]
  | c :: rest =>
    if c = '/' then [] :: splitSlash rest
    else
      match splitSlash rest with
      | g :: gs => (c :: g) :: gs
      | [] => [[c]]

/-- `extractResourceIDParts` from routing.go: split the resource ID on `/`,
drop the leading segment (index 0), and pair up the rest. The Go map is kept
as the ordered list of assignments. -/
def extractResourceIDParts (resourceID : String) : List (String × String) :=
  pairUp (((splitSlash resourceID.toList).map (fun l => String.mk l)).drop 1)

/-- Go map read `m[k]`: the last assignment to `k` wins; a missing key reads
as the empty string. -/
def mapGet (m : List (String × String)) (k : String) : String :=
  match m.reverse.find? (fun kv => kv.1 == k) with
  | some kv => kv.2
  | none => ""

/-- The default-route compliance test of routing.go lines 151-153: next-hop
type present and equal to virtual-appliance, and next-hop address present and
equal to the hub's `NVANextHop`. -/
def isCompliantRoute (nva : String) (r : Route) : Bool :=
  r.nextHopType == some NextHopType.virtualAppliance &&
    r.nextHopIPAddress == some nva

/-- The default-route detection test of routing.go line 147: `AddressPrefix`
present and equal to `0.0.0.0/0`. -/
def hasDefault (r : Route) : Bool :=
  r.addrPfx == some "0.0.0.0/0"

/-- The inner loop of routing.go lines 145-160 over one page of routes:
on the first route whose prefix is `0.0.0.0/0`, set `defaultRouteExists`,
set `defaultRouteCorrect` if it points at the NVA, and break (the `break`
statements leave only this per-page loop). -/
def scanRoutes (nva : String) (ex ok : Bool) : List Route → Bool × Bool
  | [] => (ex, ok)
  | r :: rest =>
    if hasDefault r then (true, ok || isCompliantRoute nva r)
    else scanRoutes nva ex ok rest

/-- The pager loop of routing.go lines 139-161: consume route pages in order,
threading the two flags; a pager error aborts (`failed to list routes` is
prefixed by the caller here). Note the outer loop keeps consuming pages even
after a compliant default route was found. -/
def scanRoutePages (nva : String) (ex ok : Bool) :
    List (Except String (List Route)) → Except String (Bool × Bool)
  | [] => .ok (ex, ok)
  | .error e :: _ => .error e
  | .ok page :: rest =>
    let st := scanRoutes nva ex ok page
    scanRoutePages nva st.1 st.2 rest

/-- Outcome of the mutation call of routing.go lines 185-188, instrumented
with an attempt counter. `responses` models the provider's answer to each
successive `BeginCreateOrUpdate` attempt; the source issues exactly one call
(attempt 0) and wraps any error with the subnet's name. The second component
counts the attempts actually made. -/
def applyDefaultRouteMutation (subnetName : String)
    (responses : Nat → Except String Unit) : Except String Unit × Nat :=
  match responses 0 with
  | .error e =>
    (.error ("failed to create or update default route for subnet " ++
      subnetName ++ ": " ++ e), 1)
  | .ok _ => (.ok (), 1)

/-- The planned mutation of routing.go lines 171-185: a create-or-update of a
route, addressed by route table resource group, route table name and route
name, carrying the full desired payload. -/
structure RouteAction where
  rtResourceGroup : String
  rtName : String
  routeName : String
  payload : Route
  deriving DecidableEq, Repr

/-- The fixed payload of routing.go lines 172-182: route name
`DefaultRoute-To-NVA`, prefix `0.0.0.0/0`, next-hop virtual-appliance,
next-hop address the hub's NVA address. -/
def mkDefaultRouteAction (rtRG rtName nva : String) : RouteAction :=
  { rtResourceGroup := rtRG
    rtName := rtName
    routeName := "DefaultRoute-To-NVA"
    payload :=
      { addrPfx := some "0.0.0.0/0"
        nextHopType := some NextHopType.virtualAppliance
        nextHopIPAddress := some nva } }

/-- Accumulated effects of a run fragment: route mutations issued, warnings
printed, and the error that ended it early (if any). -/
structure EnfResult where
  actions : List RouteAction
  warnings : List String
  err : Option String
  deriving DecidableEq, Repr

/-- Sequencing of run fragments: Go's early `return err` stops everything
after it; effects already produced stand. -/
def EnfResult.andThen (r : EnfResult) (k : Unit → EnfResult) : EnfResult :=
  match r.err with
  | some _ => r
  | none =>
    let r2 := k ()
    ⟨r.actions ++ r2.actions, r.warnings ++ r2.warnings, r2.err⟩

/-- `fmt.Errorf("...: %w", err)` wrapping of a fragment's error. -/
def wrapErr (pre : String) (r : EnfResult) : EnfResult :=
  match r.err with
  | some e => { r with err := some (pre ++ ": " ++ e) }
  | none => r

/-- Routing.go lines 134-189 for one subnet's route table: scan the route
pages for the first `0.0.0.0/0` entry of each page; if no page yielded a
compliant default route, remediate — erroring when the hub has no NVA
address, otherwise issuing the single create-or-update mutation. -/
def enforceRouteTable (hub : HubVNetConfig) (rtRG rtName subnetName : String)
    (pages : List (Except String (List Route)))
    (responses : Nat → Except String Unit) : EnfResult :=
  match scanRoutePages hub.nvaNextHop false false pages with
  | .error e => ⟨[], [], some ("failed to list routes: " ++ e)⟩
  | .ok st =>
    if !st.1 || !st.2 then
      if hub.nvaNextHop = "" then
        ⟨[], [], some ("no NVA IPs defined for hub " ++ hub.name)⟩
      else
        match applyDefaultRouteMutation subnetName responses with
        | (.error msg, _) => ⟨[], [], some msg⟩
        | (.ok _, _) =>
          ⟨[mkDefaultRouteAction rtRG rtName hub.nvaNextHop], [], none⟩
    else ⟨[], [], none⟩

/-- The per-subscription environment: what the Azure clients created from the
factory's current subscription ID would list or answer. `mutate` gives, per
route table coordinate, the provider's response to each successive
create-or-update attempt. -/
structure Env where
  vnetPages : List (Except String (List VNet))
  subnetPages : String → String → List (Except String (List Subnet))
  routePages : String → String → List (Except String (List Route))
  mutate : String → String → Nat → Except String Unit

/-- The per-subnet body of routing.go lines 113-189: a subnet without a route
table gets the warning and is skipped; otherwise its route table's resource
group and name are parsed from the table's resource ID and the table is
enforced. -/
def processSubnet (env : Env) (hub : HubVNetConfig) (s : Subnet) : EnfResult :=
  match s.routeTableID with
  | none => ⟨[], ["WARNING: No route table found for subnet: " ++ s.name], none⟩
  | some rtID =>
    let rtParts := extractResourceIDParts rtID
    let rtRG := mapGet rtParts "resourceGroups"
    let rtName := mapGet rtParts "routeTables"
    enforceRouteTable hub rtRG rtName s.name (env.routePages rtRG rtName)
      (env.mutate rtRG rtName)

/-- Sequential processing of one page of subnets; an error stops the loop. -/
def processSubnetList (env : Env) (hub : HubVNetConfig) :
    List Subnet → EnfResult
  | [] => ⟨[], [], none⟩
  | s :: rest =>
    (processSubnet env hub s).andThen fun _ => processSubnetList env hub rest

/-- The subnet pager loop of routing.go lines 107-111. -/
def processSubnetPages (env : Env) (hub : HubVNetConfig) :
    List (Except String (List Subnet)) → EnfResult
  | [] => ⟨[], [], none⟩
  | .error e :: _ => ⟨[], [], some ("failed to list subnets: " ++ e)⟩
  | .ok subs :: rest =>
    (processSubnetList env hub subs).andThen fun _ =>
      processSubnetPages env hub rest

/-- `enforceNVARoutingForVNet` (routing.go lines 92-194): parse the VNet's
resource group from its ID (error on a malformed ID), then process all
subnet pages of the VNet. -/
def enforceNVARoutingForVNet (env : Env) (hub : HubVNetConfig)
    (vnetID vnetName : String) : EnfResult :=
  let parts := extractResourceIDParts vnetID
  if mapGet parts "resourceGroups" = "" then
    ⟨[], [], some ("invalid VNet ID format: " ++ vnetID)⟩
  else
    processSubnetPages env hub (env.subnetPages (mapGet parts "resourceGroups") vnetName)

/-- The VNet loop body of routing.go lines 82-86 (an error from a VNet is
returned unwrapped). -/
def processVNetList (env : Env) (hub : HubVNetConfig) : List VNet → EnfResult
  | [] => ⟨[], [], none⟩
  | v :: rest =>
    (enforceNVARoutingForVNet env hub v.id v.name).andThen fun _ =>
      processVNetList env hub rest

/-- The VNet pager loop of routing.go lines 75-87. -/
def processVNetPages (env : Env) (hub : HubVNetConfig) :
    List (Except String (List VNet)) → EnfResult
  | [] => ⟨[], [], none⟩
  | .error e :: _ => ⟨[], [], some ("failed to list virtual networks: " ++ e)⟩
  | .ok vnets :: rest =>
    (processVNetList env hub vnets).andThen fun _ =>
      processVNetPages env hub rest

/-- `enforceNVARouting` (routing.go lines 66-89) for one subscription. -/
def enforceNVARouting (env : Env) (hub : HubVNetConfig) : EnfResult :=
  processVNetPages env hub env.vnetPages

/-- The client factory's mutable state (`azure.ClientFactory.subscriptionID`,
written by `SetSubscriptionID`, read when clients are created). -/
structure FactoryState where
  subscriptionID : String
  deriving DecidableEq, Repr

/-- The body of the `EnforceAll` loop (routing.go lines 29-61) for one
subscription: first `SetSubscriptionID` overwrites the shared factory state;
then, when routing enforcement is on, the hub is looked up by name (a missing
hub is a run-aborting error), NVA routing is enforced if required, and subnet
isolation is run if required. `enforceSubnetIsolation`'s body is not among
the sources; its outcome per subscription is the parameter `iso`, which
issues no route mutations of its own. The environment is read through the
factory's current subscription ID, mirroring client construction. -/
def stepSubscription (cfg : Config) (envOf : String → Env)
    (iso : String → Except String Unit) (id : String)
    (sub : SubscriptionConfig) : FactoryState × EnfResult :=
  let fs : FactoryState := ⟨id⟩
  if cfg.features.routingEnforcement then
    match cfg.hubs.find? (fun h => h.name == sub.hubName) with
    | none =>
      (fs, ⟨[], [], some ("hub " ++ sub.hubName ++ " not found for subscription " ++ id)⟩)
    | some hub =>
      let r1 :=
        if sub.requireNVARouting then
          wrapErr ("failed to enforce NVA routing for subscription " ++ id)
            (enforceNVARouting (envOf fs.subscriptionID) hub)
        else ⟨[], [], none⟩
      let r := r1.andThen fun _ =>
        if sub.subnetToSubnetDeny then
          match iso fs.subscriptionID with
          | .error e =>
            ⟨[], [], some ("failed to enforce subnet isolation for subscription " ++ id ++ ": " ++ e)⟩
          | .ok _ => ⟨[], [], none⟩
        else ⟨[], [], none⟩
      (fs, r)
  else (fs, ⟨[], [], none⟩)

/-- The subscription loop of `EnforceAll`: on the first subscription whose
processing errors, the error is returned and the remaining subscriptions are
not touched. -/
def enforceAllGo (cfg : Config) (envOf : String → Env)
    (iso : String → Except String Unit) :
    FactoryState → List (String × SubscriptionConfig) → FactoryState × EnfResult
  | fs, [] => (fs, ⟨[], [], none⟩)
  | _, (id, sub) :: rest =>
    let st := stepSubscription cfg envOf iso id sub
    match st.2.err with
    | some _ => st
    | none =>
      let st2 := enforceAllGo cfg envOf iso st.1 rest
      (st2.1, ⟨st.2.actions ++ st2.2.actions, st.2.warnings ++ st2.2.warnings, st2.2.err⟩)

/-- `Enforcer.EnforceAll` (routing.go lines 28-63), over the configured
subscriptions in iteration order. -/
def EnforceAll (cfg : Config) (envOf : String → Env)
    (iso : String → Except String Unit) (fs : FactoryState) :
    FactoryState × EnfResult :=
  enforceAllGo cfg envOf iso fs cfg.subscriptions

/-- The CIDR loop of `Config.Validate` (model.go lines 73-77) over one
subscription's allowed ranges; `parseCIDROk` abstracts `net.ParseCIDR`
succeeding. -/
def checkCIDRList (parseCIDROk : String → Bool) : List String → Except String Unit
  | [] => .ok ()
  | c :: cs =>
    if parseCIDROk c then checkCIDRList parseCIDROk cs
    else .error ("invalid CIDR in allowedIPRanges: " ++ c)

/-- The outer CIDR loop of `Config.Validate` (model.go lines 72-78). -/
def checkSubsCIDRs (parseCIDROk : String → Bool) :
    List (String × SubscriptionConfig) → Except String Unit
  | [] => .ok ()
  | (_, sub) :: rest =>
    match checkCIDRList parseCIDROk sub.allowedCIDRs with
    | .error e => .error e
    | .ok _ => checkSubsCIDRs parseCIDROk rest

/-- The NVA-IP loop of `Config.Validate` (model.go lines 86-92): a hub's NVA
address is checked only when non-empty; `parseIPOk` abstracts `net.ParseIP`
succeeding. -/
def checkHubNVAs (parseIPOk : String → Bool) : List HubVNetConfig → Except String Unit
  | [] => .ok ()
  | h :: rest =>
    if h.nvaNextHop != "" && !parseIPOk h.nvaNextHop then
      .error ("invalid NVA IP: " ++ h.nvaNextHop)
    else checkHubNVAs parseIPOk rest

/-- `Config.Validate` (model.go lines 70-95): CIDRs of every subscription,
then at least one hub, then every hub's non-empty NVA address parses as an
IP. No check ever reads a subscription's `hubName`. -/
def Config.Validate (parseCIDROk parseIPOk : String → Bool) (c : Config) :
    Except String Unit :=
  match checkSubsCIDRs parseCIDROk c.subscriptions with
  | .error e => .error e
  | .ok _ =>
    if c.hubs.isEmpty then
      .error "at least one hub configuration is required"
    else checkHubNVAs parseIPOk c.hubs

/-- The contribution of one page to `defaultRouteCorrect`: the page's first
`0.0.0.0/0` route, tested for NVA compliance. -/
def pageFirstCompliant (nva : String) (p : List Route) : Bool :=
  match p.find? hasDefault with
  | some r => isCompliantRoute nva r
  | none => false

theorem scanRoutes_spec (nva : String) (p : List Route) :
    ∀ ex ok, scanRoutes nva ex ok p =
      (ex || p.any hasDefault, ok || pageFirstCompliant nva p) := by
  induction p with
  | nil => intro ex ok; simp [scanRoutes, pageFirstCompliant]
  | cons r rest ih =>
    intro ex ok
    cases h : hasDefault r with
    | true =>
      simp [scanRoutes, h, pageFirstCompliant, List.find?_cons_of_pos _ h]
    | false =>
      have h' : ¬hasDefault r = true := by simp [h]
      simp [scanRoutes, h, pageFirstCompliant, List.find?_cons_of_neg _ h', ih]

theorem scanRoutePages_ok (nva : String) (ps : List (List Route)) :
    ∀ ex ok, scanRoutePages nva ex ok (ps.map Except.ok) =
      .ok (ex || ps.any (fun p => p.any hasDefault),
           ok || ps.any (pageFirstCompliant nva)) := by
  induction ps with
  | nil => intro ex ok; simp [scanRoutePages]
  | cons p ps ih =>
    intro ex ok
    simp only [List.map_cons, scanRoutePages, scanRoutes_spec, List.any_cons]
    rw [ih]
    simp [Bool.or_assoc]

theorem pageFirstCompliant_hasDefault {nva : String} {p : List Route}
    (h : pageFirstCompliant nva p = true) : p.any hasDefault = true := by
  unfold pageFirstCompliant at h
  cases hf : p.find? hasDefault with
  | none => rw [hf] at h; simp at h
  | some r =>
    exact List.any_eq_true.2
      ⟨r, List.mem_of_find?_eq_some hf, List.find?_some hf⟩

theorem enforceRouteTable_okPages (hub : HubVNetConfig)
    (rtRG rtName sn : String) (ps : List (List Route))
    (resp : Nat → Except String Unit) :
    enforceRouteTable hub rtRG rtName sn (ps.map Except.ok) resp =
      if ps.any (pageFirstCompliant hub.nvaNextHop) then ⟨[], [], none⟩
      else if hub.nvaNextHop = "" then
        ⟨[], [], some ("no NVA IPs defined for hub " ++ hub.name)⟩
      else
        match applyDefaultRouteMutation sn resp with
        | (.error msg, _) => ⟨[], [], some msg⟩
        | (.ok _, _) =>
          ⟨[mkDefaultRouteAction rtRG rtName hub.nvaNextHop], [], none⟩ := by
  unfold enforceRouteTable
  rw [scanRoutePages_ok]
  cases hc : ps.any (pageFirstCompliant hub.nvaNextHop) with
  | true =>
    have hex : ps.any (fun p => p.any hasDefault) = true := by
      obtain ⟨p, hp, hpc⟩ := List.any_eq_true.1 hc
      exact List.any_eq_true.2 ⟨p, hp, pageFirstCompliant_hasDefault hpc⟩
    simp [hex, hc]
  | false => simp [hc]

theorem find_eq_head_filter (p : α → Bool) (l : List α) :
    l.find? p = (l.filter p).head? := by
  induction l with
  | nil => rfl
  | cons x xs ih =>
    cases h : p x with
    | true =>
      rw [List.find?_cons_of_pos _ h, List.filter_cons, if_pos h]
      rfl
    | false =>
      have h' : ¬p x = true := by simp [h]
      rw [List.find?_cons_of_neg _ h', List.filter_cons, if_neg h']
      exact ih

theorem append_eq_single {α : Type} {a b : List α} {x : α}
    (h : a ++ b = [x]) : (a = [] ∧ b = [x]) ∨ (a = [x] ∧ b = []) := by
  cases a with
  | nil => exact Or.inl ⟨rfl, h⟩
  | cons y ys =>
    simp only [List.cons_append, List.cons.injEq] at h
    obtain ⟨rfl, h2⟩ := h
    obtain ⟨rfl, rfl⟩ := List.append_eq_nil.1 h2
    exact Or.inr ⟨rfl, rfl⟩

theorem pages_filter_of_flatten_nil {ps : List (List Route)}
    (h : ps.flatten.filter hasDefault = []) :
    ∀ p ∈ ps, p.filter hasDefault = [] := by
  induction ps with
  | nil => intro p hp; cases hp
  | cons q qs ih =>
    rw [List.flatten_cons, List.filter_append] at h
    obtain ⟨h1, h2⟩ := List.append_eq_nil.1 h
    intro p hp
    rcases List.mem_cons.1 hp with rfl | hp'
    · exact h1
    · exact ih h2 p hp'

theorem pages_filter_of_flatten_single {ps : List (List Route)} {r : Route}
    (h : ps.flatten.filter hasDefault = [r]) :
    (∃ p ∈ ps, p.filter hasDefault = [r]) ∧
      ∀ p ∈ ps, p.filter hasDefault = [] ∨ p.filter hasDefault = [r] := by
  induction ps with
  | nil => simp [List.filter] at h
  | cons q qs ih =>
    rw [List.flatten_cons, List.filter_append] at h
    rcases append_eq_single h with ⟨h1, h2⟩ | ⟨h1, h2⟩
    · obtain ⟨⟨p, hp, hps⟩, hall⟩ := ih h2
      refine ⟨⟨p, List.mem_cons_of_mem _ hp, hps⟩, ?_⟩
      intro p' hp'
      rcases List.mem_cons.1 hp' with rfl | hp''
      · exact Or.inl h1
      · exact hall p' hp''
    · refine ⟨⟨q, List.mem_cons_self _ _, h1⟩, ?_⟩
      intro p' hp'
      rcases List.mem_cons.1 hp' with rfl | hp''
      · exact Or.inr h1
      · exact Or.inl (pages_filter_of_flatten_nil h2 p' hp'')

theorem checkHubNVAs_all_empty (q : String → Bool) :
    ∀ hs : List HubVNetConfig, (∀ h ∈ hs, h.nvaNextHop = "") →
      checkHubNVAs q hs = .ok () := by
  intro hs
  induction hs with
  | nil => intro _; rfl
  | cons h hs ih =>
    intro hall
    have h1 : h.nvaNextHop = "" := hall h (List.mem_cons_self _ _)
    simp [checkHubNVAs, h1]
    exact ih fun x hx => hall x (List.mem_cons_of_mem _ hx)

/-- Rewrite every subscription's hub reference to `n`, leaving everything
else untouched. -/
def renameHubRefs (n : String) (c : Config) : Config :=
  { c with subscriptions :=
      c.subscriptions.map fun x => (x.1, { x.2 with hubName := n }) }

theorem checkSubsCIDRs_renameHubRefs (p : String → Bool) (n : String) :
    ∀ subs : List (String × SubscriptionConfig),
      checkSubsCIDRs p (subs.map fun x => (x.1, { x.2 with hubName := n })) =
        checkSubsCIDRs p subs := by
  intro subs
  induction subs with
  | nil => rfl
  | cons s rest ih =>
    simp only [List.map_cons, checkSubsCIDRs]
    rw [ih]

/-- Modelled from the spec: the mutation interface of the Topology Snapshot
Provider (§4.2, §4.4) — not code of this repository. The observable topology
maps a route table coordinate (resource group, table name) and a route name
to the route stored there; `BeginCreateOrUpdate` upserts the addressed route
to the full desired payload. -/
def Topo := String × String → String → Option Route

/-- Does a planned mutation address the route `n` of table `k`? -/
def routeActionMatches (a : RouteAction) (k : String × String) (n : String) : Bool :=
  k == (a.rtResourceGroup, a.rtName) && n == a.routeName

/-- Modelled from the spec: applying one create-or-update sets the addressed
route to the action's payload and leaves every other route unchanged. -/
def applyRouteAction (t : Topo) (a : RouteAction) : Topo :=
  fun k n => if routeActionMatches a k n then some a.payload else t k n

/-- Apply a list of planned mutations in order. -/
def applyRouteActions (t : Topo) (acts : List RouteAction) : Topo :=
  acts.foldl applyRouteAction t

theorem applyRouteActions_lookup (acts : List RouteAction) :
    ∀ (t : Topo) (k : String × String) (n : String),
      applyRouteActions t acts k n =
        match acts.reverse.find? (fun a => routeActionMatches a k n) with
        | some a => some a.payload
        | none => t k n := by
  induction acts with
  | nil => intro t k n; rfl
  | cons a as ih =>
    intro t k n
    show applyRouteActions (applyRouteAction t a) as k n = _
    rw [ih]
    rw [List.reverse_cons, List.find?_append]
    cases hf : as.reverse.find? (fun a => routeActionMatches a k n) with
    | some b => rfl
    | none =>
      show (applyRouteAction t a) k n =
        (match (List.find? (fun a => routeActionMatches a k n) [a]) with
          | some a => some a.payload
          | none => t k n)
      unfold applyRouteAction
      cases hm : routeActionMatches a k n with
      | true => simp [List.find?, hm]
      | false => simp [List.find?, hm]

theorem applyRouteActions_idem (t : Topo) (acts : List RouteAction) :
    applyRouteActions (applyRouteActions t acts) acts =
      applyRouteActions t acts := by
  funext k n
  rw [applyRouteActions_lookup, applyRouteActions_lookup]
  cases hf : acts.reverse.find? (fun a => routeActionMatches a k n) with
  | some b => rfl
  | none => rfl

/-- C1 counterexample: a subnet whose route table is empty (so it contains no
`0.0.0.0/0` route at all) under a hub whose NVA next-hop address is the empty
string. The claim demands exactly one CreateOrUpdateDefaultRoute mutation
carrying next-hop address equal to the scope's hub NVA address (here the
empty string); the code instead issues no mutation and returns the error
`no NVA IPs defined for hub hub-a`. -/
theorem c1_counterexample :
    enforceRouteTable ⟨"hv", "hr", "hub-a", ""⟩ "rg1" "rt1" "subnet1" []
        (fun _ => .ok ()) = ⟨[], [], some "no NVA IPs defined for hub hub-a"⟩ ∧
      enforceRouteTable ⟨"hv", "hr", "hub-a", ""⟩ "rg1" "rt1" "subnet1" []
        (fun _ => .ok ()) ≠ ⟨[mkDefaultRouteAction "rg1" "rt1" ""], [], none⟩ := by
  constructor <;> decide

/-- C1 (amended): for every subnet whose route table contains no `0.0.0.0/0`
route, or contains (under the data model's unique-prefix invariant) exactly
one `0.0.0.0/0` route that is non-compliant, and whose scope's hub NVA
address is non-empty, the enforcement issues exactly one
CreateOrUpdateDefaultRoute mutation for that subnet's route table, carrying
the fixed route name `DefaultRoute-To-NVA`, prefix `0.0.0.0/0`, next-hop
type virtual-appliance, and next-hop address equal to the hub NVA address. -/
theorem c1_amended_missing_or_wrong_default_emits_single_action
    (hub : HubVNetConfig) (rtRG rtName sn : String) (ps : List (List Route))
    (hnva : hub.nvaNextHop ≠ "")
    (hbad : ps.flatten.filter hasDefault = [] ∨
      ∃ r, ps.flatten.filter hasDefault = [r] ∧
        isCompliantRoute hub.nvaNextHop r = false) :
    enforceRouteTable hub rtRG rtName sn (ps.map Except.ok) (fun _ => .ok ()) =
      ⟨[⟨rtRG, rtName, "DefaultRoute-To-NVA",
          ⟨some "0.0.0.0/0", some NextHopType.virtualAppliance,
            some hub.nvaNextHop⟩⟩], [], none⟩ := by
  have hpfc : ps.any (pageFirstCompliant hub.nvaNextHop) = false := by
    refine List.any_eq_false.2 ?_
    intro p hp
    rcases hbad with hnil | ⟨r, huniq, hncomp⟩
    · have h0 := pages_filter_of_flatten_nil hnil p hp
      unfold pageFirstCompliant
      rw [find_eq_head_filter, h0]
      simp
    · rcases (pages_filter_of_flatten_single huniq).2 p hp with h0 | h1
      · unfold pageFirstCompliant
        rw [find_eq_head_filter, h0]
        simp
      · unfold pageFirstCompliant
        rw [find_eq_head_filter, h1]
        simp [hncomp]
  rw [enforceRouteTable_okPages]
  simp [hpfc, hnva, applyDefaultRouteMutation, mkDefaultRouteAction]

/-- C1 witness: an empty route table under hub NVA address `10.0.0.4` gets
exactly the fixed default-route mutation. -/
theorem c1_witness :
    enforceRouteTable ⟨"hv", "hr", "hub-a", "10.0.0.4"⟩ "rg1" "rt1" "subnet1"
        [] (fun _ => .ok ()) =
      ⟨[⟨"rg1", "rt1", "DefaultRoute-To-NVA",
          ⟨some "0.0.0.0/0", some NextHopType.virtualAppliance,
            some "10.0.0.4"⟩⟩], [], none⟩ :=
  c1_amended_missing_or_wrong_default_emits_single_action
    ⟨"hv", "hr", "hub-a", "10.0.0.4"⟩ "rg1" "rt1" "subnet1" []
    (by decide) (Or.inl rfl)

/-- C2: for every subnet whose route table contains (as its unique `0.0.0.0/0`
entry, per the data model's unique-prefix invariant) a compliant default
route — prefix `0.0.0.0/0`, next-hop type virtual-appliance, next-hop
address the scope's hub NVA address — the enforcement issues no mutation, no
warning and no error for that subnet, whatever the mutation provider would
have answered. -/
theorem c2_compliant_default_route_no_action (hub : HubVNetConfig)
    (rtRG rtName sn : String) (ps : List (List Route))
    (resp : Nat → Except String Unit) (r : Route)
    (huniq : ps.flatten.filter hasDefault = [r])
    (hcomp : isCompliantRoute hub.nvaNextHop r = true) :
    enforceRouteTable hub rtRG rtName sn (ps.map Except.ok) resp =
      ⟨[], [], none⟩ := by
  have hpfc : ps.any (pageFirstCompliant hub.nvaNextHop) = true := by
    obtain ⟨⟨p, hp, hps⟩, _⟩ := pages_filter_of_flatten_single huniq
    refine List.any_eq_true.2 ⟨p, hp, ?_⟩
    unfold pageFirstCompliant
    rw [find_eq_head_filter, hps]
    exact hcomp
  rw [enforceRouteTable_okPages]
  simp [hpfc]

/-- C2 witness: a one-page route table whose only route is the compliant
default route produces no mutation and no error. -/
theorem c2_witness :
    enforceRouteTable ⟨"hv", "hr", "hub-a", "10.0.0.4"⟩ "rg1" "rt1" "subnet1"
        [Except.ok [⟨some "0.0.0.0/0", some NextHopType.virtualAppliance,
          some "10.0.0.4"⟩]] (fun _ => .ok ()) = ⟨[], [], none⟩ :=
  c2_compliant_default_route_no_action ⟨"hv", "hr", "hub-a", "10.0.0.4"⟩
    "rg1" "rt1" "subnet1"
    [[⟨some "0.0.0.0/0", some NextHopType.virtualAppliance, some "10.0.0.4"⟩]]
    (fun _ => .ok ())
    ⟨some "0.0.0.0/0", some NextHopType.virtualAppliance, some "10.0.0.4"⟩
    (by decide) (by decide)

/-- C5 counterexample: two route listings with the same first-encountered
`0.0.0.0/0` route (pointing at `10.9.9.9`, not the hub NVA `10.0.0.4`): a
one-page listing containing only that route, and a two-page listing whose
second page holds a second, compliant `0.0.0.0/0` route. The claim says the
first-encountered `0.0.0.0/0` route alone determines the verdict, so both
listings should yield the same outcome; the code remediates the first but
treats the second as compliant (the `break` leaves only the per-page loop,
so the later page's duplicate changes the verdict; no warning is emitted for
the duplicate either). -/
theorem c5_counterexample :
    enforceRouteTable ⟨"hv", "hr", "hub-a", "10.0.0.4"⟩ "rg1" "rt1" "subnet1"
        [Except.ok [⟨some "0.0.0.0/0", some NextHopType.virtualAppliance,
          some "10.9.9.9"⟩]] (fun _ => .ok ()) ≠
      enforceRouteTable ⟨"hv", "hr", "hub-a", "10.0.0.4"⟩ "rg1" "rt1" "subnet1"
        [Except.ok [⟨some "0.0.0.0/0", some NextHopType.virtualAppliance,
          some "10.9.9.9"⟩],
         Except.ok [⟨some "0.0.0.0/0", some NextHopType.virtualAppliance,
          some "10.0.0.4"⟩]] (fun _ => .ok ()) := by
  decide

/-- C5 (amended): within each page only the first-encountered `0.0.0.0/0`
route is examined, and the subnet is deemed compliant if and only if in some
page the first-encountered `0.0.0.0/0` route is compliant — so duplicate
default routes on later pages can change the verdict, and no warning is ever
reported for duplicates (the warnings list is always empty here). -/
theorem c5_amended_per_page_first_match_semantics (hub : HubVNetConfig)
    (rtRG rtName sn : String) (ps : List (List Route)) :
    enforceRouteTable hub rtRG rtName sn (ps.map Except.ok) (fun _ => .ok ()) =
      if ps.any (pageFirstCompliant hub.nvaNextHop) then ⟨[], [], none⟩
      else if hub.nvaNextHop = "" then
        ⟨[], [], some ("no NVA IPs defined for hub " ++ hub.name)⟩
      else ⟨[mkDefaultRouteAction rtRG rtName hub.nvaNextHop], [], none⟩ := by
  rw [enforceRouteTable_okPages]
  rfl

/-- C3 counterexample: a configuration whose only subscription references hub
`hub-b` while only `hub-a` is defined. Validation succeeds (with parsers that
accept everything), yet the run surfaces `hub hub-b not found for
subscription sub-1` at enforcement time — the dangling hub reference is a
per-scope runtime error, not a load-time validation error as claimed. -/
theorem c3_counterexample :
    Config.Validate (fun _ => true) (fun _ => true)
        ⟨[⟨"hv", "hr", "hub-a", "10.0.0.4"⟩],
          [("sub-1", ⟨[], "hub-b", false, true, false⟩)],
          ⟨false, true, false, false, false⟩⟩ = .ok () ∧
      (EnforceAll ⟨[⟨"hv", "hr", "hub-a", "10.0.0.4"⟩],
          [("sub-1", ⟨[], "hub-b", false, true, false⟩)],
          ⟨false, true, false, false, false⟩⟩
        (fun _ => ⟨[], fun _ _ => [], fun _ _ => [], fun _ _ _ => .ok ()⟩)
        (fun _ => .ok ()) ⟨"initial"⟩).2.err =
        some "hub hub-b not found for subscription sub-1" := by
  constructor <;> decide

/-- C3 (amended): validation never inspects the scopes' hub references (its
outcome is unchanged when every subscription's `hubName` is rewritten
arbitrarily), and a scope whose hub reference matches no defined hub is
reported as a runtime error during that scope's enforcement step, aborting
the run there. -/
theorem c3_amended_dangling_hub_is_runtime_error (p q : String → Bool)
    (cfg : Config) (envOf : String → Env) (iso : String → Except String Unit)
    (id n : String) (sub : SubscriptionConfig)
    (hfeat : cfg.features.routingEnforcement = true)
    (hnone : cfg.hubs.find? (fun h => h.name == sub.hubName) = none) :
    Config.Validate p q (renameHubRefs n cfg) = Config.Validate p q cfg ∧
      (stepSubscription cfg envOf iso id sub).2.err =
        some ("hub " ++ sub.hubName ++ " not found for subscription " ++ id) := by
  constructor
  · unfold Config.Validate renameHubRefs
    rw [checkSubsCIDRs_renameHubRefs]
  · simp [stepSubscription, hfeat, hnone]

/-- C3 witness: instantiation of the amended claim at a configuration with a
dangling hub reference. -/
theorem c3_witness :
    Config.Validate (fun _ => true) (fun _ => true)
        (renameHubRefs "hub-z" ⟨[⟨"hv", "hr", "hub-a", "10.0.0.4"⟩],
          [("sub-1", ⟨[], "hub-b", false, true, false⟩)],
          ⟨false, true, false, false, false⟩⟩) =
      Config.Validate (fun _ => true) (fun _ => true)
        ⟨[⟨"hv", "hr", "hub-a", "10.0.0.4"⟩],
          [("sub-1", ⟨[], "hub-b", false, true, false⟩)],
          ⟨false, true, false, false, false⟩⟩ ∧
      (stepSubscription ⟨[⟨"hv", "hr", "hub-a", "10.0.0.4"⟩],
          [("sub-1", ⟨[], "hub-b", false, true, false⟩)],
          ⟨false, true, false, false, false⟩⟩
        (fun _ => ⟨[], fun _ _ => [], fun _ _ => [], fun _ _ _ => .ok ()⟩)
        (fun _ => .ok ()) "sub-1" ⟨[], "hub-b", false, true, false⟩).2.err =
        some ("hub hub-b not found for subscription sub-1") :=
  c3_amended_dangling_hub_is_runtime_error (fun _ => true) (fun _ => true)
    ⟨[⟨"hv", "hr", "hub-a", "10.0.0.4"⟩],
      [("sub-1", ⟨[], "hub-b", false, true, false⟩)],
      ⟨false, true, false, false, false⟩⟩
    (fun _ => ⟨[], fun _ _ => [], fun _ _ => [], fun _ _ _ => .ok ()⟩)
    (fun _ => .ok ()) "sub-1" "hub-z" ⟨[], "hub-b", false, true, false⟩
    rfl (by decide)

/-- C4 counterexample: two scopes, the first with an unresolvable hub
reference, the second needing default-route remediation. With both present
the run ends with the first scope's error and no mutation at all is issued;
with the failing scope removed, the second scope alone produces the
default-route mutation — so the first scope's failure did abort the
processing of the remaining scope. -/
theorem c4_counterexample :
    (EnforceAll
        ⟨[⟨"hv", "hr", "hub-a", "10.0.0.4"⟩],
          [("sub-bad", ⟨[], "nope", false, true, false⟩),
           ("sub-good", ⟨[], "hub-a", false, true, false⟩)],
          ⟨false, true, false, false, false⟩⟩
        (fun _ => ⟨[Except.ok [⟨"/subscriptions/x/resourceGroups/rg1/providers/Microsoft.Network/virtualNetworks/vnet1", "vnet1"⟩]],
          fun _ _ => [Except.ok [⟨"subnet1", some "/subscriptions/x/resourceGroups/rg1/providers/Microsoft.Network/routeTables/rt1"⟩]],
          fun _ _ => [], fun _ _ _ => .ok ()⟩)
        (fun _ => .ok ()) ⟨"initial"⟩).2 =
      ⟨[], [], some "hub nope not found for subscription sub-bad"⟩ ∧
    (EnforceAll
        ⟨[⟨"hv", "hr", "hub-a", "10.0.0.4"⟩],
          [("sub-good", ⟨[], "hub-a", false, true, false⟩)],
          ⟨false, true, false, false, false⟩⟩
        (fun _ => ⟨[Except.ok [⟨"/subscriptions/x/resourceGroups/rg1/providers/Microsoft.Network/virtualNetworks/vnet1", "vnet1"⟩]],
          fun _ _ => [Except.ok [⟨"subnet1", some "/subscriptions/x/resourceGroups/rg1/providers/Microsoft.Network/routeTables/rt1"⟩]],
          fun _ _ => [], fun _ _ _ => .ok ()⟩)
        (fun _ => .ok ()) ⟨"initial"⟩).2 =
      ⟨[mkDefaultRouteAction "rg1" "rt1" "10.0.0.4"], [], none⟩ := by
  constructor <;> decide

/-- C4 (amended): the run is aborted by the first scope (in iteration order)
whose processing errors: the run's outcome is exactly that scope's outcome,
and the remaining scopes are not processed at all (the result does not
depend on them). -/
theorem c4_amended_first_scope_failure_aborts_run (cfg : Config)
    (envOf : String → Env) (iso : String → Except String Unit)
    (fs : FactoryState) (id : String) (sub : SubscriptionConfig)
    (rest : List (String × SubscriptionConfig)) (e : String)
    (h : (stepSubscription cfg envOf iso id sub).2.err = some e) :
    enforceAllGo cfg envOf iso fs ((id, sub) :: rest) =
      stepSubscription cfg envOf iso id sub := by
  simp [enforceAllGo, h]

/-- C4 witness: instantiation of the amended claim — the failing first scope's
outcome is the run's outcome, independently of the second scope. -/
theorem c4_witness :
    enforceAllGo ⟨[], [("s1", ⟨[], "hub-b", false, true, false⟩),
          ("s2", ⟨[], "hub-b", false, true, false⟩)],
        ⟨false, true, false, false, false⟩⟩
      (fun _ => ⟨[], fun _ _ => [], fun _ _ => [], fun _ _ _ => .ok ()⟩)
      (fun _ => .ok ()) ⟨"initial"⟩
      [("s1", ⟨[], "hub-b", false, true, false⟩),
       ("s2", ⟨[], "hub-b", false, true, false⟩)] =
      stepSubscription ⟨[], [("s1", ⟨[], "hub-b", false, true, false⟩),
          ("s2", ⟨[], "hub-b", false, true, false⟩)],
        ⟨false, true, false, false, false⟩⟩
        (fun _ => ⟨[], fun _ _ => [], fun _ _ => [], fun _ _ _ => .ok ()⟩)
        (fun _ => .ok ()) "s1" ⟨[], "hub-b", false, true, false⟩ :=
  c4_amended_first_scope_failure_aborts_run
    ⟨[], [("s1", ⟨[], "hub-b", false, true, false⟩),
        ("s2", ⟨[], "hub-b", false, true, false⟩)],
      ⟨false, true, false, false, false⟩⟩
    (fun _ => ⟨[], fun _ _ => [], fun _ _ => [], fun _ _ _ => .ok ()⟩)
    (fun _ => .ok ()) ⟨"initial"⟩ "s1" ⟨[], "hub-b", false, true, false⟩
    [("s2", ⟨[], "hub-b", false, true, false⟩)]
    "hub hub-b not found for subscription s1" (by decide)

/-- C6 counterexample: the provider times out on the first create-or-update
attempt and would succeed on a second attempt. The claim demands a retry
with backoff up to a fixed maximum attempt count; the code makes exactly one
attempt and surfaces the failure immediately (there is no error
classification or retry anywhere in the source). -/
theorem c6_counterexample :
    applyDefaultRouteMutation "subnet1"
        (fun n => if n == 0 then .error "request timed out" else .ok ()) =
      (.error ("failed to create or update default route for subnet subnet1: request timed out"), 1) ∧
      (fun n => if n == 0 then (.error "request timed out" : Except String Unit)
        else .ok ()) 1 = .ok () := by
  constructor <;> decide

/-- C6 (amended): every mutation application makes exactly one attempt; its
outcome depends only on the provider's first response (retry responses are
never consulted), and any provider error — transient or permanent alike —
is surfaced immediately as the wrapped failure. -/
theorem c6_amended_single_attempt_immediate_failure (sn : String)
    (r1 r2 : Nat → Except String Unit) (h : r1 0 = r2 0) :
    applyDefaultRouteMutation sn r1 = applyDefaultRouteMutation sn r2 ∧
      (applyDefaultRouteMutation sn r1).2 = 1 ∧
      ∀ e, r1 0 = .error e → (applyDefaultRouteMutation sn r1).1 =
        .error ("failed to create or update default route for subnet " ++
          sn ++ ": " ++ e) := by
  refine ⟨?_, ?_, ?_⟩
  · unfold applyDefaultRouteMutation
    rw [h]
  · unfold applyDefaultRouteMutation
    cases r1 0 <;> rfl
  · intro e he
    unfold applyDefaultRouteMutation
    rw [he]

/-- C6 witness: instantiation of the amended claim at a provider that always
fails. -/
theorem c6_witness :
    (applyDefaultRouteMutation "subnet1" (fun _ => Except.error "boom")).2 = 1 ∧
      (applyDefaultRouteMutation "subnet1" (fun _ => Except.error "boom")).1 =
        Except.error "failed to create or update default route for subnet subnet1: boom" :=
  ⟨(c6_amended_single_attempt_immediate_failure "subnet1"
      (fun _ => Except.error "boom") (fun _ => Except.error "boom") rfl).2.1,
   (c6_amended_single_attempt_immediate_failure "subnet1"
      (fun _ => Except.error "boom") (fun _ => Except.error "boom") rfl).2.2
      "boom" rfl⟩

/-- C7: applying the full list of route mutations computed for a scope twice
in succession leaves the topology identical to applying it once — each
mutation re-issues the full desired payload, so the upserting provider
converges (last write per addressed route wins, and re-applying rewrites the
same payloads). -/
theorem c7_double_apply_idempotent (env : Env) (hub : HubVNetConfig)
    (t : Topo) :
    applyRouteActions (applyRouteActions t (enforceNVARouting env hub).actions)
        (enforceNVARouting env hub).actions =
      applyRouteActions t (enforceNVARouting env hub).actions :=
  applyRouteActions_idem t (enforceNVARouting env hub).actions

/-- C8: a subnet with no associated route table yields exactly the recorded
warning, no mutation and no error, and the subnet loop continues with the
remaining subnets (the results of the rest are exactly appended after the
warning). -/
theorem c8_no_route_table_warns_and_continues (env : Env)
    (hub : HubVNetConfig) (s : Subnet) (rest : List Subnet)
    (h : s.routeTableID = none) :
    processSubnet env hub s =
        ⟨[], ["WARNING: No route table found for subnet: " ++ s.name], none⟩ ∧
      processSubnetList env hub (s :: rest) =
        ⟨(processSubnetList env hub rest).actions,
          ("WARNING: No route table found for subnet: " ++ s.name) ::
            (processSubnetList env hub rest).warnings,
          (processSubnetList env hub rest).err⟩ := by
  constructor
  · simp [processSubnet, h]
  · simp [processSubnetList, processSubnet, h, EnfResult.andThen]

/-- C8 witness: a subnet without a route table, followed by no further
subnets: the recorded warning and nothing else. -/
theorem c8_witness :
    processSubnet ⟨[], fun _ _ => [], fun _ _ => [], fun _ _ _ => .ok ()⟩
        ⟨"hv", "hr", "hub-a", "10.0.0.4"⟩ ⟨"subnet1", none⟩ =
      ⟨[], ["WARNING: No route table found for subnet: subnet1"], none⟩ :=
  (c8_no_route_table_warns_and_continues
    ⟨[], fun _ _ => [], fun _ _ => [], fun _ _ _ => .ok ()⟩
    ⟨"hv", "hr", "hub-a", "10.0.0.4"⟩ ⟨"subnet1", none⟩ [] rfl).1

/-- C9 counterexample: a run over one scope (with routing enforcement even
disabled, so nothing else happens) still overwrites the shared client
factory's subscription ID from `initial` to the scope's ID — processing a
scope does mutate shared state beyond any run-report accumulator. -/
theorem c9_counterexample :
    (EnforceAll ⟨[], [("sub-1", ⟨[], "hub-a", false, false, false⟩)],
          ⟨false, false, false, false, false⟩⟩
        (fun _ => ⟨[], fun _ _ => [], fun _ _ => [], fun _ _ _ => .ok ()⟩)
        (fun _ => .ok ()) ⟨"initial"⟩).1 = ⟨"sub-1"⟩ ∧
      ("sub-1" : String) ≠ "initial" := by
  constructor <;> decide

/-- C9 (amended): processing a scope always mutates the shared client
factory, setting its subscription ID field to that scope's identifier
(`SetSubscriptionID` is called unconditionally at the top of the loop
body); this is shared mutable state beyond the run report. -/
theorem c9_amended_step_overwrites_factory_subscription (cfg : Config)
    (envOf : String → Env) (iso : String → Except String Unit)
    (id : String) (sub : SubscriptionConfig) :
    (stepSubscription cfg envOf iso id sub).1 = ⟨id⟩ := by
  cases hf : cfg.features.routingEnforcement with
  | false => simp [stepSubscription, hf]
  | true =>
    cases hh : cfg.hubs.find? (fun h => h.name == sub.hubName) with
    | none => simp [stepSubscription, hf, hh]
    | some hub => simp [stepSubscription, hf, hh]

/-- C10: a configuration whose hubs all have an empty NVA next-hop address
passes validation whenever its other checks pass (the empty value is never
inspected), while at remediation time a subnet needing the default route
under such a hub makes the enforcement return the `no NVA IPs defined`
error instead of emitting a mutation. -/
theorem c10_empty_nva_validates_but_fails_at_remediation :
    (∀ (p q : String → Bool) (c : Config),
        checkSubsCIDRs p c.subscriptions = .ok () → c.hubs ≠ [] →
        (∀ h ∈ c.hubs, h.nvaNextHop = "") →
        Config.Validate p q c = .ok ()) ∧
      ∀ (hub : HubVNetConfig) (rtRG rtName sn : String)
        (ps : List (List Route)) (resp : Nat → Except String Unit),
        hub.nvaNextHop = "" →
        ps.any (pageFirstCompliant hub.nvaNextHop) = false →
        enforceRouteTable hub rtRG rtName sn (ps.map Except.ok) resp =
          ⟨[], [], some ("no NVA IPs defined for hub " ++ hub.name)⟩ := by
  constructor
  · intro p q c h1 h2 h3
    unfold Config.Validate
    rw [h1]
    have hne : c.hubs.isEmpty = false := by
      cases hc : c.hubs with
      | nil => exact absurd hc h2
      | cons a as => rfl
    rw [hne]
    simp only [Bool.false_eq_true, if_false]
    exact checkHubNVAs_all_empty q c.hubs h3
  · intro hub rtRG rtName sn ps resp h1 h2
    rw [enforceRouteTable_okPages, h2]
    simp [h1]

/-- C10 witness: a concrete configuration with one empty-NVA hub passes
validation even under parsers rejecting everything, and an empty route table
under that hub fails remediation with the `no NVA IPs defined` error. -/
theorem c10_witness :
    Config.Validate (fun _ => false) (fun _ => false)
        ⟨[⟨"hv", "hr", "hub-a", ""⟩],
          [("sub-1", ⟨[], "hub-a", false, true, false⟩)],
          ⟨false, true, false, false, false⟩⟩ = .ok () ∧
      enforceRouteTable ⟨"hv", "hr", "hub-a", ""⟩ "rg1" "rt1" "subnet1" []
        (fun _ => .ok ()) = ⟨[], [], some "no NVA IPs defined for hub hub-a"⟩ :=
  ⟨c10_empty_nva_validates_but_fails_at_remediation.1 (fun _ => false)
      (fun _ => false)
      ⟨[⟨"hv", "hr", "hub-a", ""⟩],
        [("sub-1", ⟨[], "hub-a", false, true, false⟩)],
        ⟨false, true, false, false, false⟩⟩
      (by decide) (by decide) (by decide),
   c10_empty_nva_validates_but_fails_at_remediation.2
      ⟨"hv", "hr", "hub-a", ""⟩ "rg1" "rt1" "subnet1" [] (fun _ => .ok ())
      rfl (by decide)⟩
